import Mathlib

/-!
The function wm2str: window-message identifier to macro name.

A shallow embedding of `src/shared/wm2str.cpp`: the static table `allMessages`
built with `DEFINE_MESSAGE`, the frequent-message guard and the linear search
loop of `wm2str`.

* A `UINT` is a natural number; every statement below holds for all naturals,
  hence for every 32-bit value.
* The numeric values of the `WM_*` macros come from `<windows.h>`, which is not
  part of the sources.  The embedding takes them as a parameter
  `hdr : Sym → Nat`; `winuser` is the assignment made by the platform headers.
* The two `#ifdef` blocks of the table are selected by a `Build`.
* A read of `allMessages[index]` outside the array is undefined in C++; the
  embedded loop returns `none` there, and logs every index it reads.
-/

namespace Wm2str

/-- The macro names that occur as arguments of `DEFINE_MESSAGE` in the table,
in order of first occurrence. -/
inductive Sym where
  | WM_CREATE
  | WM_DESTROY
  | WM_MOVE
  | WM_SIZE
  | WM_ACTIVATE
  | WM_SETFOCUS
  | WM_KILLFOCUS
  | WM_ENABLE
  | WM_SETREDRAW
  | WM_SETTEXT
  | WM_GETTEXT
  | WM_GETTEXTLENGTH
  | WM_PAINT
  | WM_CLOSE
  | WM_QUERYENDSESSION
  | WM_QUIT
  | WM_QUERYOPEN
  | WM_ERASEBKGND
  | WM_SYSCOLORCHANGE
  | WM_ENDSESSION
  | WM_SHOWWINDOW
  | WM_CTLCOLORMSGBOX
  | WM_CTLCOLOREDIT
  | WM_CTLCOLORLISTBOX
  | WM_CTLCOLORBTN
  | WM_CTLCOLORDLG
  | WM_CTLCOLORSCROLLBAR
  | WM_CTLCOLORSTATIC
  | WM_WININICHANGE
  | WM_SETTINGCHANGE
  | WM_DEVMODECHANGE
  | WM_ACTIVATEAPP
  | WM_FONTCHANGE
  | WM_TIMECHANGE
  | WM_CANCELMODE
  | WM_SETCURSOR
  | WM_MOUSEACTIVATE
  | WM_CHILDACTIVATE
  | WM_QUEUESYNC
  | WM_GETMINMAXINFO
  | WM_ICONERASEBKGND
  | WM_NEXTDLGCTL
  | WM_SPOOLERSTATUS
  | WM_DRAWITEM
  | WM_MEASUREITEM
  | WM_DELETEITEM
  | WM_VKEYTOITEM
  | WM_CHARTOITEM
  | WM_SETFONT
  | WM_GETFONT
  | WM_QUERYDRAGICON
  | WM_COMPAREITEM
  | WM_COMPACTING
  | WM_NCCREATE
  | WM_NCDESTROY
  | WM_NCCALCSIZE
  | WM_NCHITTEST
  | WM_NCPAINT
  | WM_NCACTIVATE
  | WM_GETDLGCODE
  | WM_NCMOUSEMOVE
  | WM_NCLBUTTONDOWN
  | WM_NCLBUTTONUP
  | WM_NCLBUTTONDBLCLK
  | WM_NCRBUTTONDOWN
  | WM_NCRBUTTONUP
  | WM_NCRBUTTONDBLCLK
  | WM_NCMBUTTONDOWN
  | WM_NCMBUTTONUP
  | WM_NCMBUTTONDBLCLK
  | WM_KEYDOWN
  | WM_KEYUP
  | WM_CHAR
  | WM_DEADCHAR
  | WM_SYSKEYDOWN
  | WM_SYSKEYUP
  | WM_SYSCHAR
  | WM_SYSDEADCHAR
  | WM_KEYLAST
  | WM_INITDIALOG
  | WM_COMMAND
  | WM_SYSCOMMAND
  | WM_TIMER
  | WM_HSCROLL
  | WM_VSCROLL
  | WM_INITMENU
  | WM_INITMENUPOPUP
  | WM_MENUSELECT
  | WM_MENUCHAR
  | WM_ENTERIDLE
  | WM_MOUSEWHEEL
  | WM_MOUSEMOVE
  | WM_LBUTTONDOWN
  | WM_LBUTTONUP
  | WM_LBUTTONDBLCLK
  | WM_RBUTTONDOWN
  | WM_RBUTTONUP
  | WM_RBUTTONDBLCLK
  | WM_MBUTTONDOWN
  | WM_MBUTTONUP
  | WM_MBUTTONDBLCLK
  | WM_PARENTNOTIFY
  | WM_MDICREATE
  | WM_MDIDESTROY
  | WM_MDIACTIVATE
  | WM_MDIRESTORE
  | WM_MDINEXT
  | WM_MDIMAXIMIZE
  | WM_MDITILE
  | WM_MDICASCADE
  | WM_MDIICONARRANGE
  | WM_MDIGETACTIVE
  | WM_MDISETMENU
  | WM_CUT
  | WM_COPYDATA
  | WM_COPY
  | WM_PASTE
  | WM_CLEAR
  | WM_UNDO
  | WM_RENDERFORMAT
  | WM_RENDERALLFORMATS
  | WM_DESTROYCLIPBOARD
  | WM_DRAWCLIPBOARD
  | WM_PAINTCLIPBOARD
  | WM_VSCROLLCLIPBOARD
  | WM_SIZECLIPBOARD
  | WM_ASKCBFORMATNAME
  | WM_CHANGECBCHAIN
  | WM_HSCROLLCLIPBOARD
  | WM_QUERYNEWPALETTE
  | WM_PALETTEISCHANGING
  | WM_PALETTECHANGED
  | WM_DROPFILES
  | WM_POWER
  | WM_WINDOWPOSCHANGED
  | WM_WINDOWPOSCHANGING
  | WM_HELP
  | WM_NOTIFY
  | WM_CONTEXTMENU
  | WM_TCARD
  | WM_MDIREFRESHMENU
  | WM_MOVING
  | WM_STYLECHANGED
  | WM_STYLECHANGING
  | WM_SIZING
  | WM_SETHOTKEY
  | WM_PRINT
  | WM_PRINTCLIENT
  | WM_POWERBROADCAST
  | WM_HOTKEY
  | WM_GETICON
  | WM_EXITMENULOOP
  | WM_ENTERMENULOOP
  | WM_DISPLAYCHANGE
  | WM_SETICON
  | WM_CAPTURECHANGED
  | WM_DEVICECHANGE
  | WM_DDE_INITIATE
  | WM_DDE_TERMINATE
  | WM_DDE_ADVISE
  | WM_DDE_UNADVISE
  | WM_DDE_ACK
  | WM_DDE_DATA
  | WM_DDE_REQUEST
  | WM_DDE_POKE
  | WM_DDE_EXECUTE
  | WM_SIZEPARENT
  | WM_SETMESSAGESTRING
  | WM_IDLEUPDATECMDUI
  | WM_INITIALUPDATE
  | WM_COMMANDHELP
  | WM_HELPHITTEST
  | WM_EXITHELPMODE
  deriving DecidableEq, Repr

/-- The text the preprocessor operator `#wm` produces for the argument of
`DEFINE_MESSAGE`: the macro name as written (the operand of `#` is not
macro-expanded). -/
def Sym.spelling : Sym → String
  | .WM_CREATE => "WM_CREATE"
  | .WM_DESTROY => "WM_DESTROY"
  | .WM_MOVE => "WM_MOVE"
  | .WM_SIZE => "WM_SIZE"
  | .WM_ACTIVATE => "WM_ACTIVATE"
  | .WM_SETFOCUS => "WM_SETFOCUS"
  | .WM_KILLFOCUS => "WM_KILLFOCUS"
  | .WM_ENABLE => "WM_ENABLE"
  | .WM_SETREDRAW => "WM_SETREDRAW"
  | .WM_SETTEXT => "WM_SETTEXT"
  | .WM_GETTEXT => "WM_GETTEXT"
  | .WM_GETTEXTLENGTH => "WM_GETTEXTLENGTH"
  | .WM_PAINT => "WM_PAINT"
  | .WM_CLOSE => "WM_CLOSE"
  | .WM_QUERYENDSESSION => "WM_QUERYENDSESSION"
  | .WM_QUIT => "WM_QUIT"
  | .WM_QUERYOPEN => "WM_QUERYOPEN"
  | .WM_ERASEBKGND => "WM_ERASEBKGND"
  | .WM_SYSCOLORCHANGE => "WM_SYSCOLORCHANGE"
  | .WM_ENDSESSION => "WM_ENDSESSION"
  | .WM_SHOWWINDOW => "WM_SHOWWINDOW"
  | .WM_CTLCOLORMSGBOX => "WM_CTLCOLORMSGBOX"
  | .WM_CTLCOLOREDIT => "WM_CTLCOLOREDIT"
  | .WM_CTLCOLORLISTBOX => "WM_CTLCOLORLISTBOX"
  | .WM_CTLCOLORBTN => "WM_CTLCOLORBTN"
  | .WM_CTLCOLORDLG => "WM_CTLCOLORDLG"
  | .WM_CTLCOLORSCROLLBAR => "WM_CTLCOLORSCROLLBAR"
  | .WM_CTLCOLORSTATIC => "WM_CTLCOLORSTATIC"
  | .WM_WININICHANGE => "WM_WININICHANGE"
  | .WM_SETTINGCHANGE => "WM_SETTINGCHANGE"
  | .WM_DEVMODECHANGE => "WM_DEVMODECHANGE"
  | .WM_ACTIVATEAPP => "WM_ACTIVATEAPP"
  | .WM_FONTCHANGE => "WM_FONTCHANGE"
  | .WM_TIMECHANGE => "WM_TIMECHANGE"
  | .WM_CANCELMODE => "WM_CANCELMODE"
  | .WM_SETCURSOR => "WM_SETCURSOR"
  | .WM_MOUSEACTIVATE => "WM_MOUSEACTIVATE"
  | .WM_CHILDACTIVATE => "WM_CHILDACTIVATE"
  | .WM_QUEUESYNC => "WM_QUEUESYNC"
  | .WM_GETMINMAXINFO => "WM_GETMINMAXINFO"
  | .WM_ICONERASEBKGND => "WM_ICONERASEBKGND"
  | .WM_NEXTDLGCTL => "WM_NEXTDLGCTL"
  | .WM_SPOOLERSTATUS => "WM_SPOOLERSTATUS"
  | .WM_DRAWITEM => "WM_DRAWITEM"
  | .WM_MEASUREITEM => "WM_MEASUREITEM"
  | .WM_DELETEITEM => "WM_DELETEITEM"
  | .WM_VKEYTOITEM => "WM_VKEYTOITEM"
  | .WM_CHARTOITEM => "WM_CHARTOITEM"
  | .WM_SETFONT => "WM_SETFONT"
  | .WM_GETFONT => "WM_GETFONT"
  | .WM_QUERYDRAGICON => "WM_QUERYDRAGICON"
  | .WM_COMPAREITEM => "WM_COMPAREITEM"
  | .WM_COMPACTING => "WM_COMPACTING"
  | .WM_NCCREATE => "WM_NCCREATE"
  | .WM_NCDESTROY => "WM_NCDESTROY"
  | .WM_NCCALCSIZE => "WM_NCCALCSIZE"
  | .WM_NCHITTEST => "WM_NCHITTEST"
  | .WM_NCPAINT => "WM_NCPAINT"
  | .WM_NCACTIVATE => "WM_NCACTIVATE"
  | .WM_GETDLGCODE => "WM_GETDLGCODE"
  | .WM_NCMOUSEMOVE => "WM_NCMOUSEMOVE"
  | .WM_NCLBUTTONDOWN => "WM_NCLBUTTONDOWN"
  | .WM_NCLBUTTONUP => "WM_NCLBUTTONUP"
  | .WM_NCLBUTTONDBLCLK => "WM_NCLBUTTONDBLCLK"
  | .WM_NCRBUTTONDOWN => "WM_NCRBUTTONDOWN"
  | .WM_NCRBUTTONUP => "WM_NCRBUTTONUP"
  | .WM_NCRBUTTONDBLCLK => "WM_NCRBUTTONDBLCLK"
  | .WM_NCMBUTTONDOWN => "WM_NCMBUTTONDOWN"
  | .WM_NCMBUTTONUP => "WM_NCMBUTTONUP"
  | .WM_NCMBUTTONDBLCLK => "WM_NCMBUTTONDBLCLK"
  | .WM_KEYDOWN => "WM_KEYDOWN"
  | .WM_KEYUP => "WM_KEYUP"
  | .WM_CHAR => "WM_CHAR"
  | .WM_DEADCHAR => "WM_DEADCHAR"
  | .WM_SYSKEYDOWN => "WM_SYSKEYDOWN"
  | .WM_SYSKEYUP => "WM_SYSKEYUP"
  | .WM_SYSCHAR => "WM_SYSCHAR"
  | .WM_SYSDEADCHAR => "WM_SYSDEADCHAR"
  | .WM_KEYLAST => "WM_KEYLAST"
  | .WM_INITDIALOG => "WM_INITDIALOG"
  | .WM_COMMAND => "WM_COMMAND"
  | .WM_SYSCOMMAND => "WM_SYSCOMMAND"
  | .WM_TIMER => "WM_TIMER"
  | .WM_HSCROLL => "WM_HSCROLL"
  | .WM_VSCROLL => "WM_VSCROLL"
  | .WM_INITMENU => "WM_INITMENU"
  | .WM_INITMENUPOPUP => "WM_INITMENUPOPUP"
  | .WM_MENUSELECT => "WM_MENUSELECT"
  | .WM_MENUCHAR => "WM_MENUCHAR"
  | .WM_ENTERIDLE => "WM_ENTERIDLE"
  | .WM_MOUSEWHEEL => "WM_MOUSEWHEEL"
  | .WM_MOUSEMOVE => "WM_MOUSEMOVE"
  | .WM_LBUTTONDOWN => "WM_LBUTTONDOWN"
  | .WM_LBUTTONUP => "WM_LBUTTONUP"
  | .WM_LBUTTONDBLCLK => "WM_LBUTTONDBLCLK"
  | .WM_RBUTTONDOWN => "WM_RBUTTONDOWN"
  | .WM_RBUTTONUP => "WM_RBUTTONUP"
  | .WM_RBUTTONDBLCLK => "WM_RBUTTONDBLCLK"
  | .WM_MBUTTONDOWN => "WM_MBUTTONDOWN"
  | .WM_MBUTTONUP => "WM_MBUTTONUP"
  | .WM_MBUTTONDBLCLK => "WM_MBUTTONDBLCLK"
  | .WM_PARENTNOTIFY => "WM_PARENTNOTIFY"
  | .WM_MDICREATE => "WM_MDICREATE"
  | .WM_MDIDESTROY => "WM_MDIDESTROY"
  | .WM_MDIACTIVATE => "WM_MDIACTIVATE"
  | .WM_MDIRESTORE => "WM_MDIRESTORE"
  | .WM_MDINEXT => "WM_MDINEXT"
  | .WM_MDIMAXIMIZE => "WM_MDIMAXIMIZE"
  | .WM_MDITILE => "WM_MDITILE"
  | .WM_MDICASCADE => "WM_MDICASCADE"
  | .WM_MDIICONARRANGE => "WM_MDIICONARRANGE"
  | .WM_MDIGETACTIVE => "WM_MDIGETACTIVE"
  | .WM_MDISETMENU => "WM_MDISETMENU"
  | .WM_CUT => "WM_CUT"
  | .WM_COPYDATA => "WM_COPYDATA"
  | .WM_COPY => "WM_COPY"
  | .WM_PASTE => "WM_PASTE"
  | .WM_CLEAR => "WM_CLEAR"
  | .WM_UNDO => "WM_UNDO"
  | .WM_RENDERFORMAT => "WM_RENDERFORMAT"
  | .WM_RENDERALLFORMATS => "WM_RENDERALLFORMATS"
  | .WM_DESTROYCLIPBOARD => "WM_DESTROYCLIPBOARD"
  | .WM_DRAWCLIPBOARD => "WM_DRAWCLIPBOARD"
  | .WM_PAINTCLIPBOARD => "WM_PAINTCLIPBOARD"
  | .WM_VSCROLLCLIPBOARD => "WM_VSCROLLCLIPBOARD"
  | .WM_SIZECLIPBOARD => "WM_SIZECLIPBOARD"
  | .WM_ASKCBFORMATNAME => "WM_ASKCBFORMATNAME"
  | .WM_CHANGECBCHAIN => "WM_CHANGECBCHAIN"
  | .WM_HSCROLLCLIPBOARD => "WM_HSCROLLCLIPBOARD"
  | .WM_QUERYNEWPALETTE => "WM_QUERYNEWPALETTE"
  | .WM_PALETTEISCHANGING => "WM_PALETTEISCHANGING"
  | .WM_PALETTECHANGED => "WM_PALETTECHANGED"
  | .WM_DROPFILES => "WM_DROPFILES"
  | .WM_POWER => "WM_POWER"
  | .WM_WINDOWPOSCHANGED => "WM_WINDOWPOSCHANGED"
  | .WM_WINDOWPOSCHANGING => "WM_WINDOWPOSCHANGING"
  | .WM_HELP => "WM_HELP"
  | .WM_NOTIFY => "WM_NOTIFY"
  | .WM_CONTEXTMENU => "WM_CONTEXTMENU"
  | .WM_TCARD => "WM_TCARD"
  | .WM_MDIREFRESHMENU => "WM_MDIREFRESHMENU"
  | .WM_MOVING => "WM_MOVING"
  | .WM_STYLECHANGED => "WM_STYLECHANGED"
  | .WM_STYLECHANGING => "WM_STYLECHANGING"
  | .WM_SIZING => "WM_SIZING"
  | .WM_SETHOTKEY => "WM_SETHOTKEY"
  | .WM_PRINT => "WM_PRINT"
  | .WM_PRINTCLIENT => "WM_PRINTCLIENT"
  | .WM_POWERBROADCAST => "WM_POWERBROADCAST"
  | .WM_HOTKEY => "WM_HOTKEY"
  | .WM_GETICON => "WM_GETICON"
  | .WM_EXITMENULOOP => "WM_EXITMENULOOP"
  | .WM_ENTERMENULOOP => "WM_ENTERMENULOOP"
  | .WM_DISPLAYCHANGE => "WM_DISPLAYCHANGE"
  | .WM_SETICON => "WM_SETICON"
  | .WM_CAPTURECHANGED => "WM_CAPTURECHANGED"
  | .WM_DEVICECHANGE => "WM_DEVICECHANGE"
  | .WM_DDE_INITIATE => "WM_DDE_INITIATE"
  | .WM_DDE_TERMINATE => "WM_DDE_TERMINATE"
  | .WM_DDE_ADVISE => "WM_DDE_ADVISE"
  | .WM_DDE_UNADVISE => "WM_DDE_UNADVISE"
  | .WM_DDE_ACK => "WM_DDE_ACK"
  | .WM_DDE_DATA => "WM_DDE_DATA"
  | .WM_DDE_REQUEST => "WM_DDE_REQUEST"
  | .WM_DDE_POKE => "WM_DDE_POKE"
  | .WM_DDE_EXECUTE => "WM_DDE_EXECUTE"
  | .WM_SIZEPARENT => "WM_SIZEPARENT"
  | .WM_SETMESSAGESTRING => "WM_SETMESSAGESTRING"
  | .WM_IDLEUPDATECMDUI => "WM_IDLEUPDATECMDUI"
  | .WM_INITIALUPDATE => "WM_INITIALUPDATE"
  | .WM_COMMANDHELP => "WM_COMMANDHELP"
  | .WM_HELPHITTEST => "WM_HELPHITTEST"
  | .WM_EXITHELPMODE => "WM_EXITHELPMODE"

/-- Modelled from the spec: the numeric values of the message macros, which
the source takes from `<windows.h>` (`winuser.h`, with `dde.h` and `afxpriv.h`
for the two optional blocks); the header is not part of the sources.  The spec
fixes `WM_CREATE = 0x0001`, `WM_DESTROY = 0x0002`, `WM_SETCURSOR = 0x0020`
and `WM_MOUSEMOVE = 0x0200`; the other values are the ones the platform SDK
publishes (`WM_SETTINGCHANGE` is an alias of `WM_WININICHANGE`, and
`WM_KEYLAST` is `0x0109` from Windows XP on). -/
def winuser : Sym → Nat
  | .WM_CREATE => 0x0001
  | .WM_DESTROY => 0x0002
  | .WM_MOVE => 0x0003
  | .WM_SIZE => 0x0005
  | .WM_ACTIVATE => 0x0006
  | .WM_SETFOCUS => 0x0007
  | .WM_KILLFOCUS => 0x0008
  | .WM_ENABLE => 0x000A
  | .WM_SETREDRAW => 0x000B
  | .WM_SETTEXT => 0x000C
  | .WM_GETTEXT => 0x000D
  | .WM_GETTEXTLENGTH => 0x000E
  | .WM_PAINT => 0x000F
  | .WM_CLOSE => 0x0010
  | .WM_QUERYENDSESSION => 0x0011
  | .WM_QUIT => 0x0012
  | .WM_QUERYOPEN => 0x0013
  | .WM_ERASEBKGND => 0x0014
  | .WM_SYSCOLORCHANGE => 0x0015
  | .WM_ENDSESSION => 0x0016
  | .WM_SHOWWINDOW => 0x0018
  | .WM_CTLCOLORMSGBOX => 0x0132
  | .WM_CTLCOLOREDIT => 0x0133
  | .WM_CTLCOLORLISTBOX => 0x0134
  | .WM_CTLCOLORBTN => 0x0135
  | .WM_CTLCOLORDLG => 0x0136
  | .WM_CTLCOLORSCROLLBAR => 0x0137
  | .WM_CTLCOLORSTATIC => 0x0138
  | .WM_WININICHANGE => 0x001A
  | .WM_SETTINGCHANGE => 0x001A
  | .WM_DEVMODECHANGE => 0x001B
  | .WM_ACTIVATEAPP => 0x001C
  | .WM_FONTCHANGE => 0x001D
  | .WM_TIMECHANGE => 0x001E
  | .WM_CANCELMODE => 0x001F
  | .WM_SETCURSOR => 0x0020
  | .WM_MOUSEACTIVATE => 0x0021
  | .WM_CHILDACTIVATE => 0x0022
  | .WM_QUEUESYNC => 0x0023
  | .WM_GETMINMAXINFO => 0x0024
  | .WM_ICONERASEBKGND => 0x0027
  | .WM_NEXTDLGCTL => 0x0028
  | .WM_SPOOLERSTATUS => 0x002A
  | .WM_DRAWITEM => 0x002B
  | .WM_MEASUREITEM => 0x002C
  | .WM_DELETEITEM => 0x002D
  | .WM_VKEYTOITEM => 0x002E
  | .WM_CHARTOITEM => 0x002F
  | .WM_SETFONT => 0x0030
  | .WM_GETFONT => 0x0031
  | .WM_QUERYDRAGICON => 0x0037
  | .WM_COMPAREITEM => 0x0039
  | .WM_COMPACTING => 0x0041
  | .WM_NCCREATE => 0x0081
  | .WM_NCDESTROY => 0x0082
  | .WM_NCCALCSIZE => 0x0083
  | .WM_NCHITTEST => 0x0084
  | .WM_NCPAINT => 0x0085
  | .WM_NCACTIVATE => 0x0086
  | .WM_GETDLGCODE => 0x0087
  | .WM_NCMOUSEMOVE => 0x00A0
  | .WM_NCLBUTTONDOWN => 0x00A1
  | .WM_NCLBUTTONUP => 0x00A2
  | .WM_NCLBUTTONDBLCLK => 0x00A3
  | .WM_NCRBUTTONDOWN => 0x00A4
  | .WM_NCRBUTTONUP => 0x00A5
  | .WM_NCRBUTTONDBLCLK => 0x00A6
  | .WM_NCMBUTTONDOWN => 0x00A7
  | .WM_NCMBUTTONUP => 0x00A8
  | .WM_NCMBUTTONDBLCLK => 0x00A9
  | .WM_KEYDOWN => 0x0100
  | .WM_KEYUP => 0x0101
  | .WM_CHAR => 0x0102
  | .WM_DEADCHAR => 0x0103
  | .WM_SYSKEYDOWN => 0x0104
  | .WM_SYSKEYUP => 0x0105
  | .WM_SYSCHAR => 0x0106
  | .WM_SYSDEADCHAR => 0x0107
  | .WM_KEYLAST => 0x0109
  | .WM_INITDIALOG => 0x0110
  | .WM_COMMAND => 0x0111
  | .WM_SYSCOMMAND => 0x0112
  | .WM_TIMER => 0x0113
  | .WM_HSCROLL => 0x0114
  | .WM_VSCROLL => 0x0115
  | .WM_INITMENU => 0x0116
  | .WM_INITMENUPOPUP => 0x0117
  | .WM_MENUSELECT => 0x011F
  | .WM_MENUCHAR => 0x0120
  | .WM_ENTERIDLE => 0x0121
  | .WM_MOUSEWHEEL => 0x020A
  | .WM_MOUSEMOVE => 0x0200
  | .WM_LBUTTONDOWN => 0x0201
  | .WM_LBUTTONUP => 0x0202
  | .WM_LBUTTONDBLCLK => 0x0203
  | .WM_RBUTTONDOWN => 0x0204
  | .WM_RBUTTONUP => 0x0205
  | .WM_RBUTTONDBLCLK => 0x0206
  | .WM_MBUTTONDOWN => 0x0207
  | .WM_MBUTTONUP => 0x0208
  | .WM_MBUTTONDBLCLK => 0x0209
  | .WM_PARENTNOTIFY => 0x0210
  | .WM_MDICREATE => 0x0220
  | .WM_MDIDESTROY => 0x0221
  | .WM_MDIACTIVATE => 0x0222
  | .WM_MDIRESTORE => 0x0223
  | .WM_MDINEXT => 0x0224
  | .WM_MDIMAXIMIZE => 0x0225
  | .WM_MDITILE => 0x0226
  | .WM_MDICASCADE => 0x0227
  | .WM_MDIICONARRANGE => 0x0228
  | .WM_MDIGETACTIVE => 0x0229
  | .WM_MDISETMENU => 0x0230
  | .WM_CUT => 0x0300
  | .WM_COPYDATA => 0x004A
  | .WM_COPY => 0x0301
  | .WM_PASTE => 0x0302
  | .WM_CLEAR => 0x0303
  | .WM_UNDO => 0x0304
  | .WM_RENDERFORMAT => 0x0305
  | .WM_RENDERALLFORMATS => 0x0306
  | .WM_DESTROYCLIPBOARD => 0x0307
  | .WM_DRAWCLIPBOARD => 0x0308
  | .WM_PAINTCLIPBOARD => 0x0309
  | .WM_VSCROLLCLIPBOARD => 0x030A
  | .WM_SIZECLIPBOARD => 0x030B
  | .WM_ASKCBFORMATNAME => 0x030C
  | .WM_CHANGECBCHAIN => 0x030D
  | .WM_HSCROLLCLIPBOARD => 0x030E
  | .WM_QUERYNEWPALETTE => 0x030F
  | .WM_PALETTEISCHANGING => 0x0310
  | .WM_PALETTECHANGED => 0x0311
  | .WM_DROPFILES => 0x0233
  | .WM_POWER => 0x0048
  | .WM_WINDOWPOSCHANGED => 0x0047
  | .WM_WINDOWPOSCHANGING => 0x0046
  | .WM_HELP => 0x0053
  | .WM_NOTIFY => 0x004E
  | .WM_CONTEXTMENU => 0x007B
  | .WM_TCARD => 0x0052
  | .WM_MDIREFRESHMENU => 0x0234
  | .WM_MOVING => 0x0216
  | .WM_STYLECHANGED => 0x007D
  | .WM_STYLECHANGING => 0x007C
  | .WM_SIZING => 0x0214
  | .WM_SETHOTKEY => 0x0032
  | .WM_PRINT => 0x0317
  | .WM_PRINTCLIENT => 0x0318
  | .WM_POWERBROADCAST => 0x0218
  | .WM_HOTKEY => 0x0312
  | .WM_GETICON => 0x007F
  | .WM_EXITMENULOOP => 0x0212
  | .WM_ENTERMENULOOP => 0x0211
  | .WM_DISPLAYCHANGE => 0x007E
  | .WM_SETICON => 0x0080
  | .WM_CAPTURECHANGED => 0x0215
  | .WM_DEVICECHANGE => 0x0219
  | .WM_DDE_INITIATE => 0x03E0
  | .WM_DDE_TERMINATE => 0x03E1
  | .WM_DDE_ADVISE => 0x03E2
  | .WM_DDE_UNADVISE => 0x03E3
  | .WM_DDE_ACK => 0x03E4
  | .WM_DDE_DATA => 0x03E5
  | .WM_DDE_REQUEST => 0x03E6
  | .WM_DDE_POKE => 0x03E7
  | .WM_DDE_EXECUTE => 0x03E8
  | .WM_SIZEPARENT => 0x0361
  | .WM_SETMESSAGESTRING => 0x0362
  | .WM_IDLEUPDATECMDUI => 0x0363
  | .WM_INITIALUPDATE => 0x0364
  | .WM_COMMANDHELP => 0x0365
  | .WM_HELPHITTEST => 0x0366
  | .WM_EXITHELPMODE => 0x0367

/-- The element type of the table: `struct WM_MAP_STR { UINT wm; const std::string str; }`. -/
structure WM_MAP_STR where
  wm : Nat
  str : String
  deriving DecidableEq, Repr

/-- The macro `DEFINE_MESSAGE(wm)`, defined as `{ wm, #wm }`: the value of its
argument and the argument's spelling. -/
def DEFINE_MESSAGE (hdr : Sym → Nat) (wm : Sym) : WM_MAP_STR :=
  { wm := hdr wm, str := wm.spelling }

/-- The build-time switches of the table: whether `_DDEHEADER_INCLUDED_` and
`_MFC_VER` are defined. -/
structure Build where
  ddeHeaderIncluded : Bool
  mfcVer : Bool
  deriving DecidableEq, Repr

/-- The build with neither optional block. -/
def Build.base : Build := { ddeHeaderIncluded := false, mfcVer := false }

/-- The unconditional part of the initializer of `allMessages` (source lines 80-243). -/
def baseBlock : List Sym :=
  [ Sym.WM_CREATE
  , Sym.WM_DESTROY
  , Sym.WM_MOVE
  , Sym.WM_SIZE
  , Sym.WM_ACTIVATE
  , Sym.WM_SETFOCUS
  , Sym.WM_KILLFOCUS
  , Sym.WM_ENABLE
  , Sym.WM_SETREDRAW
  , Sym.WM_SETTEXT
  , Sym.WM_GETTEXT
  , Sym.WM_GETTEXTLENGTH
  , Sym.WM_PAINT
  , Sym.WM_CLOSE
  , Sym.WM_QUERYENDSESSION
  , Sym.WM_QUIT
  , Sym.WM_QUERYOPEN
  , Sym.WM_ERASEBKGND
  , Sym.WM_SYSCOLORCHANGE
  , Sym.WM_ENDSESSION
  , Sym.WM_SHOWWINDOW
  , Sym.WM_CTLCOLORMSGBOX
  , Sym.WM_CTLCOLOREDIT
  , Sym.WM_CTLCOLORLISTBOX
  , Sym.WM_CTLCOLORBTN
  , Sym.WM_CTLCOLORDLG
  , Sym.WM_CTLCOLORSCROLLBAR
  , Sym.WM_CTLCOLORSTATIC
  , Sym.WM_WININICHANGE
  , Sym.WM_SETTINGCHANGE
  , Sym.WM_DEVMODECHANGE
  , Sym.WM_ACTIVATEAPP
  , Sym.WM_FONTCHANGE
  , Sym.WM_TIMECHANGE
  , Sym.WM_CANCELMODE
  , Sym.WM_SETCURSOR
  , Sym.WM_MOUSEACTIVATE
  , Sym.WM_CHILDACTIVATE
  , Sym.WM_QUEUESYNC
  , Sym.WM_GETMINMAXINFO
  , Sym.WM_ICONERASEBKGND
  , Sym.WM_NEXTDLGCTL
  , Sym.WM_SPOOLERSTATUS
  , Sym.WM_DRAWITEM
  , Sym.WM_MEASUREITEM
  , Sym.WM_DELETEITEM
  , Sym.WM_VKEYTOITEM
  , Sym.WM_CHARTOITEM
  , Sym.WM_SETFONT
  , Sym.WM_GETFONT
  , Sym.WM_QUERYDRAGICON
  , Sym.WM_COMPAREITEM
  , Sym.WM_COMPACTING
  , Sym.WM_NCCREATE
  , Sym.WM_NCDESTROY
  , Sym.WM_NCCALCSIZE
  , Sym.WM_NCHITTEST
  , Sym.WM_NCPAINT
  , Sym.WM_NCACTIVATE
  , Sym.WM_GETDLGCODE
  , Sym.WM_NCMOUSEMOVE
  , Sym.WM_NCLBUTTONDOWN
  , Sym.WM_NCLBUTTONUP
  , Sym.WM_NCLBUTTONDBLCLK
  , Sym.WM_NCRBUTTONDOWN
  , Sym.WM_NCRBUTTONUP
  , Sym.WM_NCRBUTTONDBLCLK
  , Sym.WM_NCMBUTTONDOWN
  , Sym.WM_NCMBUTTONUP
  , Sym.WM_NCMBUTTONDBLCLK
  , Sym.WM_KEYDOWN
  , Sym.WM_KEYUP
  , Sym.WM_CHAR
  , Sym.WM_DEADCHAR
  , Sym.WM_SYSKEYDOWN
  , Sym.WM_SYSKEYUP
  , Sym.WM_SYSCHAR
  , Sym.WM_SYSDEADCHAR
  , Sym.WM_KEYLAST
  , Sym.WM_INITDIALOG
  , Sym.WM_COMMAND
  , Sym.WM_SYSCOMMAND
  , Sym.WM_TIMER
  , Sym.WM_HSCROLL
  , Sym.WM_VSCROLL
  , Sym.WM_INITMENU
  , Sym.WM_INITMENUPOPUP
  , Sym.WM_MENUSELECT
  , Sym.WM_MENUCHAR
  , Sym.WM_ENTERIDLE
  , Sym.WM_MOUSEWHEEL
  , Sym.WM_MOUSEMOVE
  , Sym.WM_LBUTTONDOWN
  , Sym.WM_LBUTTONUP
  , Sym.WM_LBUTTONDBLCLK
  , Sym.WM_RBUTTONDOWN
  , Sym.WM_RBUTTONUP
  , Sym.WM_RBUTTONDBLCLK
  , Sym.WM_MBUTTONDOWN
  , Sym.WM_MBUTTONUP
  , Sym.WM_MBUTTONDBLCLK
  , Sym.WM_PARENTNOTIFY
  , Sym.WM_MDICREATE
  , Sym.WM_MDIDESTROY
  , Sym.WM_MDIACTIVATE
  , Sym.WM_MDIRESTORE
  , Sym.WM_MDINEXT
  , Sym.WM_MDIMAXIMIZE
  , Sym.WM_MDITILE
  , Sym.WM_MDICASCADE
  , Sym.WM_MDIICONARRANGE
  , Sym.WM_MDIGETACTIVE
  , Sym.WM_MDISETMENU
  , Sym.WM_CUT
  , Sym.WM_COPYDATA
  , Sym.WM_COPY
  , Sym.WM_PASTE
  , Sym.WM_CLEAR
  , Sym.WM_UNDO
  , Sym.WM_RENDERFORMAT
  , Sym.WM_RENDERALLFORMATS
  , Sym.WM_DESTROYCLIPBOARD
  , Sym.WM_DRAWCLIPBOARD
  , Sym.WM_PAINTCLIPBOARD
  , Sym.WM_VSCROLLCLIPBOARD
  , Sym.WM_SIZECLIPBOARD
  , Sym.WM_ASKCBFORMATNAME
  , Sym.WM_CHANGECBCHAIN
  , Sym.WM_HSCROLLCLIPBOARD
  , Sym.WM_QUERYNEWPALETTE
  , Sym.WM_PALETTEISCHANGING
  , Sym.WM_PALETTECHANGED
  , Sym.WM_DROPFILES
  , Sym.WM_POWER
  , Sym.WM_WINDOWPOSCHANGED
  , Sym.WM_WINDOWPOSCHANGING
  , Sym.WM_HELP
  , Sym.WM_NOTIFY
  , Sym.WM_CONTEXTMENU
  , Sym.WM_TCARD
  , Sym.WM_MDIREFRESHMENU
  , Sym.WM_MOVING
  , Sym.WM_STYLECHANGED
  , Sym.WM_STYLECHANGING
  , Sym.WM_SIZING
  , Sym.WM_SETHOTKEY
  , Sym.WM_PRINT
  , Sym.WM_PRINTCLIENT
  , Sym.WM_POWERBROADCAST
  , Sym.WM_HOTKEY
  , Sym.WM_GETICON
  , Sym.WM_EXITMENULOOP
  , Sym.WM_ENTERMENULOOP
  , Sym.WM_DISPLAYCHANGE
  , Sym.WM_STYLECHANGED
  , Sym.WM_STYLECHANGING
  , Sym.WM_GETICON
  , Sym.WM_SETICON
  , Sym.WM_SIZING
  , Sym.WM_MOVING
  , Sym.WM_CAPTURECHANGED
  , Sym.WM_DEVICECHANGE
  , Sym.WM_PRINT
  , Sym.WM_PRINTCLIENT
  ]

/-- The entries under `#ifdef _DDEHEADER_INCLUDED_` (source lines 246-254). -/
def ddeBlock : List Sym :=
  [ Sym.WM_DDE_INITIATE
  , Sym.WM_DDE_TERMINATE
  , Sym.WM_DDE_ADVISE
  , Sym.WM_DDE_UNADVISE
  , Sym.WM_DDE_ACK
  , Sym.WM_DDE_DATA
  , Sym.WM_DDE_REQUEST
  , Sym.WM_DDE_POKE
  , Sym.WM_DDE_EXECUTE
  ]

/-- The entries under `#ifdef _MFC_VER` (source lines 259-265). -/
def mfcBlock : List Sym :=
  [ Sym.WM_SIZEPARENT
  , Sym.WM_SETMESSAGESTRING
  , Sym.WM_IDLEUPDATECMDUI
  , Sym.WM_INITIALUPDATE
  , Sym.WM_COMMANDHELP
  , Sym.WM_HELPHITTEST
  , Sym.WM_EXITHELPMODE
  ]

/-- The table `static const WM_MAP_STR allMessages[]` of a build. -/
def allMessages (hdr : Sym → Nat) (build : Build) : List WM_MAP_STR :=
  baseBlock.map (DEFINE_MESSAGE hdr)
    ++ (if build.ddeHeaderIncluded then ddeBlock.map (DEFINE_MESSAGE hdr) else [])
    ++ (if build.mfcVer then mfcBlock.map (DEFINE_MESSAGE hdr) else [])

/-- The loop `for (int index = 0; index < ARRAYSIZE(allMessages); index++)`,
entered at `index`.  The first component lists the indices at which the table
is read, in order; the second is the returned string, `none` standing for a
read outside the array. -/
def searchLoop (allMessages : List WM_MAP_STR) (windowMessage : Nat) (index : Nat) :
    List Nat × Option String :=
  if index < allMessages.length then
    match allMessages[index]? with
    | none => ([index], none)
    | some entry =>
      if entry.wm = windowMessage then
        ([index], some entry.str)
      else
        let rest := searchLoop allMessages windowMessage (index + 1)
        (index :: rest.1, rest.2)
  else
    ([], some "")
termination_by allMessages.length - index

/-- The body of `wm2str` over a given table: the guard on very frequent
messages, then the search loop from index 0. -/
def wm2strOver (hdr : Sym → Nat) (allMessages : List WM_MAP_STR)
    (windowMessage : Nat) (showFrequentMessages : Bool) : Option String :=
  if !showFrequentMessages &&
      ( windowMessage == hdr Sym.WM_MOUSEMOVE
      || windowMessage == hdr Sym.WM_NCMOUSEMOVE
      || windowMessage == hdr Sym.WM_NCHITTEST
      || windowMessage == hdr Sym.WM_SETCURSOR
      || windowMessage == hdr Sym.WM_CTLCOLORBTN
      || windowMessage == hdr Sym.WM_CTLCOLORDLG
      || windowMessage == hdr Sym.WM_CTLCOLOREDIT
      || windowMessage == hdr Sym.WM_CTLCOLORLISTBOX
      || windowMessage == hdr Sym.WM_CTLCOLORMSGBOX
      || windowMessage == hdr Sym.WM_CTLCOLORSCROLLBAR
      || windowMessage == hdr Sym.WM_CTLCOLORSTATIC
      || windowMessage == hdr Sym.WM_ENTERIDLE
      || windowMessage == hdr Sym.WM_CANCELMODE ) then
    some ""
  else
    (searchLoop allMessages windowMessage 0).2

/-- The function `wm2str(windowMessage, showFrequentMessages = true)` of a build. -/
def wm2str (hdr : Sym → Nat) (build : Build)
    (windowMessage : Nat) (showFrequentMessages : Bool := true) : Option String :=
  wm2strOver hdr (allMessages hdr build) windowMessage showFrequentMessages

/-- The frequent-message set: the thirteen identifiers `wm2str` compares its
argument with before the search. -/
def frequentMessages (hdr : Sym → Nat) : List Nat :=
  [ hdr Sym.WM_MOUSEMOVE, hdr Sym.WM_NCMOUSEMOVE, hdr Sym.WM_NCHITTEST, hdr Sym.WM_SETCURSOR,
    hdr Sym.WM_CTLCOLORBTN, hdr Sym.WM_CTLCOLORDLG, hdr Sym.WM_CTLCOLOREDIT, hdr Sym.WM_CTLCOLORLISTBOX,
    hdr Sym.WM_CTLCOLORMSGBOX, hdr Sym.WM_CTLCOLORSCROLLBAR, hdr Sym.WM_CTLCOLORSTATIC,
    hdr Sym.WM_ENTERIDLE, hdr Sym.WM_CANCELMODE ]

/-- The macro names behind `frequentMessages`. -/
def frequentSyms : List Sym :=
  [ Sym.WM_MOUSEMOVE, Sym.WM_NCMOUSEMOVE, Sym.WM_NCHITTEST, Sym.WM_SETCURSOR,
    Sym.WM_CTLCOLORBTN, Sym.WM_CTLCOLORDLG, Sym.WM_CTLCOLOREDIT, Sym.WM_CTLCOLORLISTBOX,
    Sym.WM_CTLCOLORMSGBOX, Sym.WM_CTLCOLORSCROLLBAR, Sym.WM_CTLCOLORSTATIC,
    Sym.WM_ENTERIDLE, Sym.WM_CANCELMODE ]

/-- Reference lookup, in the words of the specification: the name of the first
entry, in table order, whose identifier equals the input, and the empty string
when there is none. -/
def firstMatch (table : List WM_MAP_STR) (identifier : Nat) : String :=
  match table.find? (fun entry => entry.wm == identifier) with
  | some entry => entry.str
  | none => ""

/-- De-duplication of a table that keeps, for each identifier, its first entry. -/
def dedupFirstFrom (seen : List Nat) : List WM_MAP_STR → List WM_MAP_STR
  | [] => []
  | entry :: rest =>
    if entry.wm ∈ seen then dedupFirstFrom seen rest
    else entry :: dedupFirstFrom (entry.wm :: seen) rest

/-- De-duplication keeping first entries, from the start of the table. -/
def dedupFirst (table : List WM_MAP_STR) : List WM_MAP_STR := dedupFirstFrom [] table

/-- De-duplication of a table that keeps, for each identifier, its last entry. -/
def dedupLast : List WM_MAP_STR → List WM_MAP_STR
  | [] => []
  | entry :: rest =>
    if rest.any (fun later => later.wm == entry.wm) then dedupLast rest
    else entry :: dedupLast rest

/-- What it means for `kept` to be a de-duplication of `table` keeping one entry
per identifier: entries are only removed, no identifier is left twice, and
every identifier of the table is still present. -/
def IsDedupOf (kept table : List WM_MAP_STR) : Prop :=
  kept.Sublist table ∧ (kept.map (fun entry => entry.wm)).Nodup ∧
    ∀ entry ∈ table, ∃ k ∈ kept, k.wm = entry.wm

instance (kept table : List WM_MAP_STR) : Decidable (IsDedupOf kept table) := by
  unfold IsDedupOf
  infer_instance

/-! Lemmas on the search loop and the table. -/

set_option maxRecDepth 100000

theorem firstMatch_cons (entry : WM_MAP_STR) (table : List WM_MAP_STR) (identifier : Nat) :
    firstMatch (entry :: table) identifier
      = if entry.wm = identifier then entry.str else firstMatch table identifier := by
  by_cases hw : entry.wm = identifier
  · have hp : (fun e : WM_MAP_STR => e.wm == identifier) entry = true := by simpa using hw
    rw [firstMatch, List.find?_cons_of_pos table hp, if_pos hw]
  · have hp : ¬ (fun e : WM_MAP_STR => e.wm == identifier) entry = true := by simpa using hw
    rw [firstMatch, List.find?_cons_of_neg table hp, if_neg hw, firstMatch]

theorem searchLoop_result (table : List WM_MAP_STR) (windowMessage : Nat) (index : Nat) :
    (searchLoop table windowMessage index).2
      = some (firstMatch (table.drop index) windowMessage) := by
  generalize h : table.length - index = n
  induction n generalizing index with
  | zero =>
    have hle : table.length ≤ index := by omega
    rw [searchLoop, if_neg (by omega), List.drop_eq_nil_of_le hle]
    rfl
  | succ n ih =>
    have hlt : index < table.length := by omega
    rw [searchLoop, if_pos hlt, List.getElem?_eq_getElem hlt, List.drop_eq_getElem_cons hlt,
      firstMatch_cons]
    by_cases hw : table[index].wm = windowMessage
    · simp only [hw, if_true]
    · simp only [hw, if_false]
      exact ih (index + 1) (by omega)

theorem searchLoop_reads (table : List WM_MAP_STR) (windowMessage : Nat) (index : Nat) :
    ∀ i ∈ (searchLoop table windowMessage index).1, index ≤ i ∧ i < table.length := by
  generalize h : table.length - index = n
  induction n generalizing index with
  | zero =>
    rw [searchLoop, if_neg (by omega)]
    simp
  | succ n ih =>
    have hlt : index < table.length := by omega
    rw [searchLoop, if_pos hlt]
    have hget : table[index]? = some table[index] := List.getElem?_eq_getElem hlt
    rw [hget]
    by_cases hw : table[index].wm = windowMessage
    · simp [hw, hlt]
    · have := ih (index + 1) (by omega)
      simp only [hw, if_false, List.mem_cons]
      rintro i (rfl | hi)
      · exact ⟨le_refl _, hlt⟩
      · have := this i hi
        omega

theorem firstMatch_nil (identifier : Nat) : firstMatch [] identifier = "" := rfl

theorem firstMatch_eq_empty_of_absent (table : List WM_MAP_STR) (identifier : Nat)
    (h : ∀ entry ∈ table, entry.wm ≠ identifier) : firstMatch table identifier = "" := by
  induction table with
  | nil => rfl
  | cons entry rest ih =>
    rw [firstMatch_cons, if_neg (h entry (List.mem_cons_self _ _))]
    exact ih (fun e he => h e (List.mem_cons_of_mem _ he))

theorem firstMatch_first (table : List WM_MAP_STR) (identifier : Nat)
    (h : ∃ entry ∈ table, entry.wm = identifier) :
    ∃ (index : Nat) (entry : WM_MAP_STR),
      table[index]? = some entry ∧ entry.wm = identifier ∧
      (∀ j, j < index → ∀ earlier, table[j]? = some earlier → earlier.wm ≠ identifier) ∧
      table.find? (fun e => e.wm == identifier) = some entry ∧
      firstMatch table identifier = entry.str := by
  induction table with
  | nil =>
    obtain ⟨e, he, -⟩ := h
    cases he
  | cons head rest ih =>
    by_cases hw : head.wm = identifier
    · have hp : (fun e : WM_MAP_STR => e.wm == identifier) head = true := by simpa using hw
      refine ⟨0, head, by simp, hw, ?_, List.find?_cons_of_pos rest hp, ?_⟩
      · intro j hj
        omega
      · rw [firstMatch_cons, if_pos hw]
    · have hp : ¬ (fun e : WM_MAP_STR => e.wm == identifier) head = true := by simpa using hw
      have hrest : ∃ entry ∈ rest, entry.wm = identifier := by
        obtain ⟨e, he, hwe⟩ := h
        rcases List.mem_cons.1 he with rfl | he
        · exact absurd hwe hw
        · exact ⟨e, he, hwe⟩
      obtain ⟨i, e, hget, hwe, hbefore, hfind, hname⟩ := ih hrest
      refine ⟨i + 1, e, by simpa using hget, hwe, ?_, ?_, ?_⟩
      · intro j hj earlier hearlier
        cases j with
        | zero =>
          have : head = earlier := by simpa using hearlier
          exact this ▸ hw
        | succ j => exact hbefore j (by omega) earlier (by simpa using hearlier)
      · rw [List.find?_cons_of_neg rest hp]
        exact hfind
      · rw [firstMatch_cons, if_neg hw]
        exact hname

theorem firstMatch_mem (table : List WM_MAP_STR) (identifier : Nat) :
    firstMatch table identifier = "" ∨
      ∃ entry ∈ table, entry.wm = identifier ∧ firstMatch table identifier = entry.str := by
  by_cases h : ∃ entry ∈ table, entry.wm = identifier
  · obtain ⟨i, e, hget, hwe, -, -, hname⟩ := firstMatch_first table identifier h
    exact Or.inr ⟨e, List.getElem?_mem hget, hwe, hname⟩
  · refine Or.inl (firstMatch_eq_empty_of_absent table identifier ?_)
    intro e he hwe
    exact h ⟨e, he, hwe⟩

theorem firstMatch_append (front back : List WM_MAP_STR) (identifier : Nat)
    (h : ∃ entry ∈ front, entry.wm = identifier) :
    firstMatch (front ++ back) identifier = firstMatch front identifier := by
  induction front with
  | nil =>
    obtain ⟨e, he, -⟩ := h
    cases he
  | cons head rest ih =>
    rw [List.cons_append, firstMatch_cons, firstMatch_cons]
    by_cases hw : head.wm = identifier
    · rw [if_pos hw, if_pos hw]
    · rw [if_neg hw, if_neg hw]
      apply ih
      obtain ⟨e, he, hwe⟩ := h
      rcases List.mem_cons.1 he with rfl | he
      · exact absurd hwe hw
      · exact ⟨e, he, hwe⟩

theorem guard_eq_true_iff (hdr : Sym → Nat) (windowMessage : Nat) :
    ( windowMessage == hdr Sym.WM_MOUSEMOVE
      || windowMessage == hdr Sym.WM_NCMOUSEMOVE
      || windowMessage == hdr Sym.WM_NCHITTEST
      || windowMessage == hdr Sym.WM_SETCURSOR
      || windowMessage == hdr Sym.WM_CTLCOLORBTN
      || windowMessage == hdr Sym.WM_CTLCOLORDLG
      || windowMessage == hdr Sym.WM_CTLCOLOREDIT
      || windowMessage == hdr Sym.WM_CTLCOLORLISTBOX
      || windowMessage == hdr Sym.WM_CTLCOLORMSGBOX
      || windowMessage == hdr Sym.WM_CTLCOLORSCROLLBAR
      || windowMessage == hdr Sym.WM_CTLCOLORSTATIC
      || windowMessage == hdr Sym.WM_ENTERIDLE
      || windowMessage == hdr Sym.WM_CANCELMODE ) = true
      ↔ windowMessage ∈ frequentMessages hdr := by
  simp only [frequentMessages, List.mem_cons, List.not_mem_nil, or_false, Bool.or_eq_true,
    beq_iff_eq, or_assoc]

theorem wm2strOver_suppressed (hdr : Sym → Nat) (table : List WM_MAP_STR) (windowMessage : Nat)
    (h : windowMessage ∈ frequentMessages hdr) :
    wm2strOver hdr table windowMessage false = some "" := by
  have hg := (guard_eq_true_iff hdr windowMessage).2 h
  unfold wm2strOver
  rw [hg]
  rfl

theorem wm2strOver_search (hdr : Sym → Nat) (table : List WM_MAP_STR) (windowMessage : Nat)
    (showFrequentMessages : Bool)
    (h : showFrequentMessages = true ∨ windowMessage ∉ frequentMessages hdr) :
    wm2strOver hdr table windowMessage showFrequentMessages
      = some (firstMatch table windowMessage) := by
  unfold wm2strOver
  rcases h with h | h
  · subst h
    simp only [Bool.not_true, Bool.false_and, Bool.false_eq_true, if_false]
    rw [searchLoop_result, List.drop_zero]
  · have hg := (guard_eq_true_iff hdr windowMessage).not.2 h
    rw [Bool.not_eq_true] at hg
    rw [hg]
    simp only [Bool.and_false, Bool.false_eq_true, if_false]
    rw [searchLoop_result, List.drop_zero]

theorem frequentMessages_eq_map (hdr : Sym → Nat) :
    frequentMessages hdr = frequentSyms.map hdr := rfl

theorem frequentSyms_subset_baseBlock : ∀ sym ∈ frequentSyms, sym ∈ baseBlock := by
  decide

theorem spelling_ne_empty (sym : Sym) : sym.spelling ≠ "" := by
  cases sym <;> decide

theorem allMessages_eq_base_append (hdr : Sym → Nat) (build : Build) :
    allMessages hdr build = allMessages hdr Build.base
      ++ ((if build.ddeHeaderIncluded then ddeBlock.map (DEFINE_MESSAGE hdr) else [])
        ++ (if build.mfcVer then mfcBlock.map (DEFINE_MESSAGE hdr) else [])) := by
  simp [allMessages, Build.base]

theorem mem_allMessages_of_baseBlock (hdr : Sym → Nat) (build : Build) (sym : Sym)
    (h : sym ∈ baseBlock) : DEFINE_MESSAGE hdr sym ∈ allMessages hdr build := by
  unfold allMessages
  exact List.mem_append_left _ (List.mem_append_left _ (List.mem_map_of_mem _ h))

theorem exists_sym_of_mem_allMessages (hdr : Sym → Nat) (build : Build) (entry : WM_MAP_STR)
    (h : entry ∈ allMessages hdr build) : ∃ sym, entry = DEFINE_MESSAGE hdr sym := by
  unfold allMessages at h
  rcases List.mem_append.1 h with h | h
  · rcases List.mem_append.1 h with h | h
    · obtain ⟨sym, -, rfl⟩ := List.mem_map.1 h
      exact ⟨sym, rfl⟩
    · by_cases hb : build.ddeHeaderIncluded = true
      · rw [if_pos hb] at h
        obtain ⟨sym, -, rfl⟩ := List.mem_map.1 h
        exact ⟨sym, rfl⟩
      · rw [if_neg hb] at h
        cases h
  · by_cases hb : build.mfcVer = true
    · rw [if_pos hb] at h
      obtain ⟨sym, -, rfl⟩ := List.mem_map.1 h
      exact ⟨sym, rfl⟩
    · rw [if_neg hb] at h
      cases h

theorem frequent_has_entry (hdr : Sym → Nat) (build : Build) (identifier : Nat)
    (h : identifier ∈ frequentMessages hdr) :
    ∃ entry ∈ allMessages hdr build, entry.wm = identifier := by
  rw [frequentMessages_eq_map] at h
  obtain ⟨sym, hsym, rfl⟩ := List.mem_map.1 h
  exact ⟨DEFINE_MESSAGE hdr sym,
    mem_allMessages_of_baseBlock hdr build sym (frequentSyms_subset_baseBlock sym hsym), rfl⟩

theorem str_ne_empty_of_mem (hdr : Sym → Nat) (build : Build) (entry : WM_MAP_STR)
    (h : entry ∈ allMessages hdr build) : entry.str ≠ "" := by
  obtain ⟨sym, rfl⟩ := exists_sym_of_mem_allMessages hdr build entry h
  exact spelling_ne_empty sym

theorem wm2strOver_eq (hdr : Sym → Nat) (table : List WM_MAP_STR) (windowMessage : Nat)
    (flag : Bool) :
    wm2strOver hdr table windowMessage flag
      = some (if flag = false ∧ windowMessage ∈ frequentMessages hdr then ""
          else firstMatch table windowMessage) := by
  by_cases hf : flag = false ∧ windowMessage ∈ frequentMessages hdr
  · rw [if_pos hf, hf.1]
    exact wm2strOver_suppressed hdr table windowMessage hf.2
  · rw [if_neg hf]
    apply wm2strOver_search
    cases flag
    · exact Or.inr (fun hm => hf ⟨rfl, hm⟩)
    · exact Or.inl rfl

theorem wm2str_cases (hdr : Sym → Nat) (build : Build) (identifier : Nat) (flag : Bool) :
    wm2str hdr build identifier flag = some "" ∨
      ∃ entry ∈ allMessages hdr build,
        entry.wm = identifier ∧ wm2str hdr build identifier flag = some entry.str := by
  rw [wm2str, wm2strOver_eq]
  by_cases hf : flag = false ∧ identifier ∈ frequentMessages hdr
  · rw [if_pos hf]
    exact Or.inl rfl
  · rw [if_neg hf]
    rcases firstMatch_mem (allMessages hdr build) identifier with h | ⟨e, he, hwe, hname⟩
    · exact Or.inl (congrArg some h)
    · exact Or.inr ⟨e, he, hwe, congrArg some hname⟩

theorem allMessages_subset_full (hdr : Sym → Nat) (build : Build) :
    ∀ entry ∈ allMessages hdr build, entry ∈ allMessages hdr ⟨true, true⟩ := by
  intro entry h
  unfold allMessages at h ⊢
  rcases List.mem_append.1 h with h | h
  · rcases List.mem_append.1 h with h | h
    · exact List.mem_append_left _ (List.mem_append_left _ h)
    · by_cases hb : build.ddeHeaderIncluded = true
      · rw [if_pos hb] at h
        exact List.mem_append_left _ (List.mem_append_right _ h)
      · rw [if_neg hb] at h
        cases h
  · by_cases hb : build.mfcVer = true
    · rw [if_pos hb] at h
      exact List.mem_append_right _ h
    · rw [if_neg hb] at h
      cases h

theorem winuser_same_id_full :
    ∀ e₁ ∈ allMessages winuser ⟨true, true⟩, ∀ e₂ ∈ allMessages winuser ⟨true, true⟩,
      e₁.wm = e₂.wm → e₁.str = e₂.str ∨ e₁.wm = 0x001A := by
  decide!

theorem winuser_alias_full :
    ∀ entry ∈ allMessages winuser ⟨true, true⟩, entry.wm = 0x001A →
      entry = ⟨0x001A, "WM_WININICHANGE"⟩ ∨ entry = ⟨0x001A, "WM_SETTINGCHANGE"⟩ := by
  decide

theorem winuser_same_id (build : Build) :
    ∀ e₁ ∈ allMessages winuser build, ∀ e₂ ∈ allMessages winuser build,
      e₁.wm = e₂.wm → e₁.str = e₂.str ∨
        (e₁ = ⟨0x001A, "WM_WININICHANGE"⟩ ∧ e₂ = ⟨0x001A, "WM_SETTINGCHANGE"⟩) ∨
        (e₁ = ⟨0x001A, "WM_SETTINGCHANGE"⟩ ∧ e₂ = ⟨0x001A, "WM_WININICHANGE"⟩) := by
  intro e₁ h₁ e₂ h₂ hwm
  have f₁ := allMessages_subset_full winuser build e₁ h₁
  have f₂ := allMessages_subset_full winuser build e₂ h₂
  rcases winuser_same_id_full e₁ f₁ e₂ f₂ hwm with h | h
  · exact Or.inl h
  · rcases winuser_alias_full e₁ f₁ h with a₁ | a₁ <;>
      rcases winuser_alias_full e₂ f₂ (hwm ▸ h) with a₂ | a₂
    · exact Or.inl (by rw [a₁, a₂])
    · exact Or.inr (Or.inl ⟨a₁, a₂⟩)
    · exact Or.inr (Or.inr ⟨a₁, a₂⟩)
    · exact Or.inl (by rw [a₁, a₂])

theorem firstMatch_winini (build : Build) :
    firstMatch (allMessages winuser build) 0x001A = "WM_WININICHANGE" := by
  rcases build with ⟨_ | _, _ | _⟩ <;> decide

theorem winini_mem (build : Build) :
    ({ wm := 0x001A, str := "WM_WININICHANGE" } : WM_MAP_STR) ∈ allMessages winuser build :=
  mem_allMessages_of_baseBlock winuser build Sym.WM_WININICHANGE (by decide)

theorem settingchange_mem (build : Build) :
    ({ wm := 0x001A, str := "WM_SETTINGCHANGE" } : WM_MAP_STR) ∈ allMessages winuser build :=
  mem_allMessages_of_baseBlock winuser build Sym.WM_SETTINGCHANGE (by decide)

theorem firstMatch_of_entry (build : Build) (entry : WM_MAP_STR)
    (h : entry ∈ allMessages winuser build)
    (hne : entry ≠ ⟨0x001A, "WM_SETTINGCHANGE"⟩) :
    firstMatch (allMessages winuser build) entry.wm = entry.str := by
  obtain ⟨i, e, hget, hwe, -, -, hname⟩ :=
    firstMatch_first (allMessages winuser build) entry.wm ⟨entry, h, rfl⟩
  rw [hname]
  rcases winuser_same_id build e (List.getElem?_mem hget) entry h hwe with hs | ⟨-, h₂⟩ | ⟨-, h₂⟩
  · exact hs
  · exact absurd h₂ hne
  · have hfm := firstMatch_winini build
    rw [h₂] at hname ⊢
    rw [← hname]
    exact hfm

theorem isDedupOf_dedupLast_base :
    IsDedupOf (dedupLast (allMessages winuser Build.base)) (allMessages winuser Build.base) := by
  decide!

theorem isDedupOf_dedupFirst_base :
    IsDedupOf (dedupFirst (allMessages winuser Build.base)) (allMessages winuser Build.base) := by
  decide!

theorem settingchange_not_mem_dedupFirst_base :
    ({ wm := 0x001A, str := "WM_SETTINGCHANGE" } : WM_MAP_STR)
      ∉ dedupFirst (allMessages winuser Build.base) := by
  decide!

theorem exists_sym_mem_of_mem_allMessages (hdr : Sym → Nat) (build : Build)
    (entry : WM_MAP_STR) (h : entry ∈ allMessages hdr build) :
    ∃ sym ∈ baseBlock ++ ddeBlock ++ mfcBlock, entry = DEFINE_MESSAGE hdr sym := by
  have hfull := allMessages_subset_full hdr build entry h
  have hmap : allMessages hdr ⟨true, true⟩
      = (baseBlock ++ ddeBlock ++ mfcBlock).map (DEFINE_MESSAGE hdr) := by
    simp [allMessages]
  rw [hmap] at hfull
  obtain ⟨sym, hsym, rfl⟩ := List.mem_map.1 hfull
  exact ⟨sym, hsym, rfl⟩

theorem spelling_pairwise_blocks :
    (baseBlock ++ ddeBlock ++ mfcBlock).Pairwise
      (fun s₁ s₂ => s₁.spelling = s₂.spelling → s₁ = s₂) := by
  decide!

theorem spelling_injOn_blocks (s₁ s₂ : Sym) (h₁ : s₁ ∈ baseBlock ++ ddeBlock ++ mfcBlock)
    (h₂ : s₂ ∈ baseBlock ++ ddeBlock ++ mfcBlock) (h : s₁.spelling = s₂.spelling) : s₁ = s₂ := by
  refine List.Pairwise.forall_of_forall ?_ ?_ spelling_pairwise_blocks h₁ h₂ h
  · intro x y hxy hyx
    exact (hxy hyx.symm).symm
  · intro x _ _
    rfl

theorem same_name_same_entry (hdr : Sym → Nat) (build other : Build) (e₁ e₂ : WM_MAP_STR)
    (h₁ : e₁ ∈ allMessages hdr build) (h₂ : e₂ ∈ allMessages hdr other)
    (h : e₁.str = e₂.str) : e₁ = e₂ := by
  obtain ⟨s₁, m₁, rfl⟩ := exists_sym_mem_of_mem_allMessages hdr build e₁ h₁
  obtain ⟨s₂, m₂, rfl⟩ := exists_sym_mem_of_mem_allMessages hdr other e₂ h₂
  rw [spelling_injOn_blocks s₁ s₂ m₁ m₂ h]

theorem firstMatch_eq_empty_iff (hdr : Sym → Nat) (build : Build) (identifier : Nat) :
    firstMatch (allMessages hdr build) identifier = ""
      ↔ ∀ entry ∈ allMessages hdr build, entry.wm ≠ identifier := by
  constructor
  · intro hempty entry hentry hwm
    obtain ⟨i, e, hget, -, -, -, hname⟩ :=
      firstMatch_first (allMessages hdr build) identifier ⟨entry, hentry, hwm⟩
    exact str_ne_empty_of_mem hdr build e (List.getElem?_mem hget) (hname ▸ hempty)
  · exact firstMatch_eq_empty_of_absent _ identifier

theorem searchLoop_reads_length (table : List WM_MAP_STR) (windowMessage : Nat) (index : Nat) :
    (searchLoop table windowMessage index).1.length ≤ table.length - index := by
  generalize h : table.length - index = n
  induction n generalizing index with
  | zero =>
    rw [searchLoop, if_neg (by omega)]
    simp
  | succ n ih =>
    have hlt : index < table.length := by omega
    rw [searchLoop, if_pos hlt, List.getElem?_eq_getElem hlt]
    by_cases hw : table[index].wm = windowMessage
    · simp [hw]
    · have := ih (index + 1) (by omega)
      simp only [hw, if_false, List.length_cons]
      omega

theorem allMessages_length (hdr : Sym → Nat) (build : Build) :
    (allMessages hdr build).length
      = 164 + (if build.ddeHeaderIncluded then 9 else 0) + (if build.mfcVer then 7 else 0) := by
  rcases build with ⟨_ | _, _ | _⟩ <;> simp [allMessages] <;> decide

/-! The properties of `wm2str`. -/

/-- C1: for every identifier among the thirteen frequent messages compared in
`wm2str`, `wm2str(identifier, false)` returns the empty string, although the
identifier has an entry in the message table. -/
theorem wm2str_frequent_suppressed (hdr : Sym → Nat) (build : Build) (identifier : Nat)
    (h : identifier ∈ frequentMessages hdr) :
    wm2str hdr build identifier false = some "" ∧
      (∃ entry ∈ allMessages hdr build, entry.wm = identifier) ∧
      (frequentMessages hdr).length = 13 :=
  ⟨wm2strOver_suppressed hdr _ identifier h, frequent_has_entry hdr build identifier h, rfl⟩

theorem wm2str_frequent_suppressed_witness :
    0x0200 ∈ frequentMessages winuser ∧
      (wm2str winuser Build.base 0x0200 false = some "" ∧
        (∃ entry ∈ allMessages winuser Build.base, entry.wm = 0x0200) ∧
        (frequentMessages winuser).length = 13) :=
  ⟨by decide, wm2str_frequent_suppressed winuser Build.base 0x0200 (by decide)⟩

/-- C2: when the flag is true or the identifier is not in the frequent-message
set, and some table entry has the identifier, `wm2str` returns the name of the
first entry in declaration order whose identifier equals the input: the entry
at the least matching index, which is the one a first-match `find?` over the
table yields. -/
theorem wm2str_first_match (hdr : Sym → Nat) (build : Build) (identifier : Nat) (flag : Bool)
    (hflag : flag = true ∨ identifier ∉ frequentMessages hdr)
    (hentry : ∃ entry ∈ allMessages hdr build, entry.wm = identifier) :
    ∃ (index : Nat) (entry : WM_MAP_STR),
      (allMessages hdr build)[index]? = some entry ∧ entry.wm = identifier ∧
      (∀ j, j < index → ∀ earlier,
        (allMessages hdr build)[j]? = some earlier → earlier.wm ≠ identifier) ∧
      (allMessages hdr build).find? (fun e => e.wm == identifier) = some entry ∧
      wm2str hdr build identifier flag = some entry.str := by
  obtain ⟨i, e, hget, hwe, hbefore, hfind, hname⟩ :=
    firstMatch_first (allMessages hdr build) identifier hentry
  refine ⟨i, e, hget, hwe, hbefore, hfind, ?_⟩
  rw [← hname]
  exact wm2strOver_search hdr _ identifier flag hflag

/-- C3: for an identifier that no table entry carries, `wm2str` returns the
empty string for both values of the flag. -/
theorem wm2str_absent (hdr : Sym → Nat) (build : Build) (identifier : Nat)
    (h : ∀ entry ∈ allMessages hdr build, entry.wm ≠ identifier) (flag : Bool) :
    wm2str hdr build identifier flag = some "" := by
  by_cases hf : flag = true ∨ identifier ∉ frequentMessages hdr
  · rw [wm2str, wm2strOver_search hdr _ identifier flag hf,
      firstMatch_eq_empty_of_absent _ identifier h]
  · have hfalse : flag = false := by
      cases flag
      · rfl
      · exact absurd (Or.inl rfl) hf
    have hmem : identifier ∈ frequentMessages hdr := by
      by_contra hn
      exact hf (Or.inr hn)
    rw [hfalse]
    exact wm2strOver_suppressed hdr _ identifier hmem

/-- C5: for an identifier outside the frequent-message set,
`wm2str(identifier, false)` equals `wm2str(identifier, true)`. -/
theorem wm2str_flag_irrelevant (hdr : Sym → Nat) (build : Build) (identifier : Nat)
    (h : identifier ∉ frequentMessages hdr) :
    wm2str hdr build identifier false = wm2str hdr build identifier true := by
  rw [wm2str, wm2str, wm2strOver_search hdr _ identifier false (Or.inr h),
    wm2strOver_search hdr _ identifier true (Or.inl rfl)]

/-- C6: every identifier of the frequent-message set has an entry in the table,
so `wm2str(identifier, true)` returns a non-empty name, namely the name of the
first table entry with that identifier, while `wm2str(identifier, false)`
returns the empty string. -/
theorem wm2str_frequent_named (hdr : Sym → Nat) (build : Build) (identifier : Nat)
    (h : identifier ∈ frequentMessages hdr) :
    (∃ entry ∈ allMessages hdr build,
        entry.wm = identifier ∧
        (allMessages hdr build).find? (fun e => e.wm == identifier) = some entry ∧
        wm2str hdr build identifier true = some entry.str ∧
        entry.str ≠ "") ∧
      wm2str hdr build identifier false = some "" := by
  have hentry := frequent_has_entry hdr build identifier h
  refine ⟨?_, wm2strOver_suppressed hdr _ identifier h⟩
  obtain ⟨i, e, hget, hwm, -, hfind, hname⟩ :=
    firstMatch_first (allMessages hdr build) identifier hentry
  have hmem : e ∈ allMessages hdr build := List.getElem?_mem hget
  refine ⟨e, hmem, hwm, hfind, ?_, str_ne_empty_of_mem hdr build e hmem⟩
  rw [← hname]
  exact wm2strOver_search hdr _ identifier true (Or.inl rfl)

theorem wm2str_first_match_witness :
    (true = true ∨ 0x0200 ∉ frequentMessages winuser) ∧
    (∃ entry ∈ allMessages winuser Build.base, entry.wm = 0x0200) ∧
    ∃ (index : Nat) (entry : WM_MAP_STR),
      (allMessages winuser Build.base)[index]? = some entry ∧ entry.wm = 0x0200 ∧
      (∀ j, j < index → ∀ earlier,
        (allMessages winuser Build.base)[j]? = some earlier → earlier.wm ≠ 0x0200) ∧
      (allMessages winuser Build.base).find? (fun e => e.wm == 0x0200) = some entry ∧
      wm2str winuser Build.base 0x0200 true = some entry.str :=
  ⟨Or.inl rfl, ⟨⟨0x0200, "WM_MOUSEMOVE"⟩, by decide, rfl⟩,
    wm2str_first_match winuser Build.base 0x0200 true (Or.inl rfl)
      ⟨⟨0x0200, "WM_MOUSEMOVE"⟩, by decide, rfl⟩⟩

theorem wm2str_absent_witness :
    (∀ entry ∈ allMessages winuser ⟨true, true⟩, entry.wm ≠ 0xFFFF) ∧
      ∀ flag, wm2str winuser ⟨true, true⟩ 0xFFFF flag = some "" :=
  ⟨by decide, wm2str_absent winuser ⟨true, true⟩ 0xFFFF (by decide)⟩

theorem wm2str_flag_irrelevant_witness :
    0x0001 ∉ frequentMessages winuser ∧
      wm2str winuser Build.base 0x0001 false = wm2str winuser Build.base 0x0001 true :=
  ⟨by decide, wm2str_flag_irrelevant winuser Build.base 0x0001 (by decide)⟩

theorem wm2str_frequent_named_witness :
    0x0020 ∈ frequentMessages winuser ∧
      ((∃ entry ∈ allMessages winuser Build.base,
          entry.wm = 0x0020 ∧
          (allMessages winuser Build.base).find? (fun e => e.wm == 0x0020) = some entry ∧
          wm2str winuser Build.base 0x0020 true = some entry.str ∧
          entry.str ≠ "") ∧
        wm2str winuser Build.base 0x0020 false = some "") :=
  ⟨by decide, wm2str_frequent_named winuser Build.base 0x0020 (by decide)⟩

/-- C7: the result of `wm2str` is the empty string or the name of a table
entry whose identifier equals the input; every entry is `DEFINE_MESSAGE` of a
macro, so its name is the spelling of that macro (`"WM_PAINT"` for the entry
declared as `WM_PAINT`). -/
theorem wm2str_result_shape (hdr : Sym → Nat) (build : Build) (identifier : Nat) (flag : Bool) :
    (wm2str hdr build identifier flag = some "" ∨
      ∃ entry ∈ allMessages hdr build,
        entry.wm = identifier ∧ wm2str hdr build identifier flag = some entry.str) ∧
    (∀ entry ∈ allMessages hdr build,
      ∃ sym : Sym, entry.wm = hdr sym ∧ entry.str = sym.spelling) ∧
    ({ wm := hdr Sym.WM_PAINT, str := "WM_PAINT" } : WM_MAP_STR) ∈ allMessages hdr build := by
  refine ⟨wm2str_cases hdr build identifier flag, ?_, ?_⟩
  · intro entry hentry
    obtain ⟨sym, rfl⟩ := exists_sym_of_mem_allMessages hdr build entry hentry
    exact ⟨sym, rfl, rfl⟩
  · exact mem_allMessages_of_baseBlock hdr build Sym.WM_PAINT (by decide)

/-- C9: `wm2str` is total: for every identifier and flag it returns a string,
never the out-of-bounds outcome, and every index at which the loop reads the
table is strictly below the table length. -/
theorem wm2str_total (hdr : Sym → Nat) (build : Build) (identifier : Nat) (flag : Bool) :
    (∃ name : String, wm2str hdr build identifier flag = some name) ∧
    (∀ index ∈ (searchLoop (allMessages hdr build) identifier 0).1,
      index < (allMessages hdr build).length) ∧
    (searchLoop (allMessages hdr build) identifier 0).2 ≠ none := by
  refine ⟨?_, ?_, ?_⟩
  · rcases wm2str_cases hdr build identifier flag with h | ⟨e, -, -, h⟩
    · exact ⟨_, h⟩
    · exact ⟨_, h⟩
  · intro index hindex
    exact (searchLoop_reads _ identifier 0 index hindex).2
  · rw [searchLoop_result]
    exact Option.some_ne_none _


/-- C8: the concrete scenarios of the specification, with the identifier values
of the platform headers, hold in every build. -/
theorem wm2str_scenarios (build : Build) :
    wm2str winuser build 0x0001 true = some "WM_CREATE" ∧
    wm2str winuser build 0x0002 true = some "WM_DESTROY" ∧
    wm2str winuser build 0x0200 true = some "WM_MOUSEMOVE" ∧
    wm2str winuser build 0x0200 false = some "" ∧
    wm2str winuser build 0xFFFF true = some "" ∧
    wm2str winuser build 0x0020 true = some "WM_SETCURSOR" ∧
    wm2str winuser build 0x0020 false = some "" := by
  simp only [wm2str, wm2strOver_eq]
  rcases build with ⟨_ | _, _ | _⟩ <;> decide

/-- C10: each optional block is appended after the base table, so for an
identifier that has an entry in the base table `wm2str` returns the same
string in all four builds. -/
theorem wm2str_build_independent (hdr : Sym → Nat) (identifier : Nat) (flag : Bool)
    (h : ∃ entry ∈ allMessages hdr Build.base, entry.wm = identifier) (build other : Build) :
    (allMessages hdr build = allMessages hdr Build.base
        ++ ((if build.ddeHeaderIncluded then ddeBlock.map (DEFINE_MESSAGE hdr) else [])
          ++ (if build.mfcVer then mfcBlock.map (DEFINE_MESSAGE hdr) else []))) ∧
    wm2str hdr build identifier flag = wm2str hdr other identifier flag := by
  refine ⟨allMessages_eq_base_append hdr build, ?_⟩
  rw [wm2str, wm2str, wm2strOver_eq, wm2strOver_eq, allMessages_eq_base_append hdr build,
    allMessages_eq_base_append hdr other, firstMatch_append _ _ identifier h,
    firstMatch_append _ _ identifier h]

theorem wm2str_build_independent_witness :
    (∃ entry ∈ allMessages winuser Build.base, entry.wm = 0x000F) ∧
    ((allMessages winuser ⟨true, true⟩ = allMessages winuser Build.base
        ++ ((if (⟨true, true⟩ : Build).ddeHeaderIncluded then ddeBlock.map (DEFINE_MESSAGE winuser)
              else [])
          ++ (if (⟨true, true⟩ : Build).mfcVer then mfcBlock.map (DEFINE_MESSAGE winuser)
              else []))) ∧
    wm2str winuser ⟨true, true⟩ 0x000F true = wm2str winuser ⟨false, true⟩ 0x000F true) :=
  ⟨⟨⟨0x000F, "WM_PAINT"⟩, by decide, rfl⟩,
    wm2str_build_independent winuser 0x000F true ⟨⟨0x000F, "WM_PAINT"⟩, by decide, rfl⟩
      ⟨true, true⟩ ⟨false, true⟩⟩

/-- C4 (as stated, refuted): `WM_WININICHANGE` and `WM_SETTINGCHANGE` are two
table entries with the same identifier `0x001A` and different names, so
`wm2str(0x001A, true)` does not return the name of the entry
`WM_SETTINGCHANGE`, and the de-duplication that keeps the last entry of each
identifier changes the result at `0x001A`. -/
theorem same_id_same_name_counterexample :
    ({ wm := 0x001A, str := "WM_WININICHANGE" } : WM_MAP_STR) ∈ allMessages winuser Build.base ∧
    ({ wm := 0x001A, str := "WM_SETTINGCHANGE" } : WM_MAP_STR) ∈ allMessages winuser Build.base ∧
    wm2str winuser Build.base 0x001A true = some "WM_WININICHANGE" ∧
    ¬ (∀ e₁ ∈ allMessages winuser Build.base, ∀ e₂ ∈ allMessages winuser Build.base,
        e₁.wm = e₂.wm → e₁.str = e₂.str) ∧
    ¬ (∀ entry ∈ allMessages winuser Build.base,
        wm2str winuser Build.base entry.wm true = some entry.str) ∧
    ¬ (∀ kept, IsDedupOf kept (allMessages winuser Build.base) → ∀ identifier flag,
        wm2strOver winuser kept identifier flag = wm2str winuser Build.base identifier flag) := by
  have hres : wm2str winuser Build.base 0x001A true = some "WM_WININICHANGE" := by
    rw [wm2str, wm2strOver_eq, firstMatch_winini]
    decide
  refine ⟨winini_mem _, settingchange_mem _, hres, ?_, ?_, ?_⟩
  · intro hall
    have := hall _ (winini_mem Build.base) _ (settingchange_mem Build.base) rfl
    exact absurd this (by decide)
  · intro hall
    have := hall _ (settingchange_mem Build.base)
    rw [hres] at this
    exact absurd this (by decide)
  · intro hall
    have hd := isDedupOf_dedupLast_base
    have := hall _ hd 0x001A true
    rw [hres, wm2strOver_eq] at this
    revert this
    decide

/-- C4 (amended): two table entries with the same identifier carry the same
name, except the pair `WM_WININICHANGE` / `WM_SETTINGCHANGE` (both `0x001A`);
for every entry other than `WM_SETTINGCHANGE`, `wm2str(id, true)` returns that
entry's name; and a de-duplication that keeps one entry per identifier, and
does not keep `WM_SETTINGCHANGE`, leaves the result of `wm2str` unchanged for
every input. -/
theorem dedup_preserves_wm2str (build : Build) :
    (∀ e₁ ∈ allMessages winuser build, ∀ e₂ ∈ allMessages winuser build,
      e₁.wm = e₂.wm → e₁.str = e₂.str ∨
        (e₁ = ⟨0x001A, "WM_WININICHANGE"⟩ ∧ e₂ = ⟨0x001A, "WM_SETTINGCHANGE"⟩) ∨
        (e₁ = ⟨0x001A, "WM_SETTINGCHANGE"⟩ ∧ e₂ = ⟨0x001A, "WM_WININICHANGE"⟩)) ∧
    (∀ entry ∈ allMessages winuser build, entry ≠ ⟨0x001A, "WM_SETTINGCHANGE"⟩ →
      wm2str winuser build entry.wm true = some entry.str) ∧
    (∀ kept, IsDedupOf kept (allMessages winuser build) →
      ({ wm := 0x001A, str := "WM_SETTINGCHANGE" } : WM_MAP_STR) ∉ kept →
      ∀ identifier flag,
        wm2strOver winuser kept identifier flag = wm2str winuser build identifier flag) := by
  refine ⟨winuser_same_id build, ?_, ?_⟩
  · intro entry h hne
    rw [wm2str, wm2strOver_eq, firstMatch_of_entry build entry h hne]
    simp
  · intro kept hk hset identifier flag
    obtain ⟨hsub, -, hcover⟩ := hk
    rw [wm2str, wm2strOver_eq, wm2strOver_eq]
    suffices hfm : firstMatch kept identifier
        = firstMatch (allMessages winuser build) identifier by rw [hfm]
    by_cases hex : ∃ entry ∈ allMessages winuser build, entry.wm = identifier
    · obtain ⟨e, he, hwe⟩ := hex
      obtain ⟨k, hk, hwk⟩ := hcover e he
      obtain ⟨i, k', hget, hwk', -, -, hname⟩ := firstMatch_first kept identifier
        ⟨k, hk, hwk.trans hwe⟩
      have hk'mem : k' ∈ kept := List.getElem?_mem hget
      have hne : k' ≠ ⟨0x001A, "WM_SETTINGCHANGE"⟩ := fun hc => hset (hc ▸ hk'mem)
      rw [hname, ← hwk', firstMatch_of_entry build k' (hsub.subset hk'mem) hne]
    · have habs : ∀ entry ∈ allMessages winuser build, entry.wm ≠ identifier :=
        fun entry hentry hw => hex ⟨entry, hentry, hw⟩
      rw [firstMatch_eq_empty_of_absent _ identifier habs,
        firstMatch_eq_empty_of_absent kept identifier
          (fun entry hentry => habs entry (hsub.subset hentry))]

theorem dedup_preserves_wm2str_witness :
    IsDedupOf (dedupFirst (allMessages winuser Build.base)) (allMessages winuser Build.base) ∧
    ({ wm := 0x001A, str := "WM_SETTINGCHANGE" } : WM_MAP_STR)
      ∉ dedupFirst (allMessages winuser Build.base) ∧
    (∀ identifier flag,
      wm2strOver winuser (dedupFirst (allMessages winuser Build.base)) identifier flag
        = wm2str winuser Build.base identifier flag) ∧
    ({ wm := 0x000F, str := "WM_PAINT" } : WM_MAP_STR) ∈ allMessages winuser Build.base ∧
    wm2str winuser Build.base 0x000F true = some "WM_PAINT" :=
  ⟨isDedupOf_dedupFirst_base, settingchange_not_mem_dedupFirst_base,
    (dedup_preserves_wm2str Build.base).2.2 _ isDedupOf_dedupFirst_base
      settingchange_not_mem_dedupFirst_base,
    by decide,
    (dedup_preserves_wm2str Build.base).2.1 ⟨0x000F, "WM_PAINT"⟩ (by decide) (by decide)⟩

/-- C11: in every build the message table has between 150 and 200 entries
(164 in the base table, at most 180, reached with both optional blocks), so
one call of `wm2str` reads, and compares its input with, at most 200 table
entries. -/
theorem allMessages_size (hdr : Sym → Nat) (build : Build) (identifier : Nat) :
    150 ≤ (allMessages hdr build).length ∧ (allMessages hdr build).length ≤ 200 ∧
    (allMessages hdr Build.base).length = 164 ∧
    (allMessages hdr build).length ≤ 180 ∧
    (allMessages hdr ⟨true, true⟩).length = 180 ∧
    (searchLoop (allMessages hdr build) identifier 0).1.length ≤ (allMessages hdr build).length ∧
    (searchLoop (allMessages hdr build) identifier 0).1.length ≤ 200 := by
  have hreads := searchLoop_reads_length (allMessages hdr build) identifier 0
  have hlen := allMessages_length hdr build
  have hbase := allMessages_length hdr Build.base
  have hfull := allMessages_length hdr ⟨true, true⟩
  simp only [Build.base, Bool.false_eq_true, if_false, if_true, Nat.add_zero] at hbase hfull
  have hbound : (allMessages hdr build).length ≤ 180 := by
    rw [hlen]
    split <;> split <;> omega
  refine ⟨by omega, by omega, hbase, hbound, hfull, by omega, by omega⟩

/-- C12: every name in the message table is a non-empty string; hence
`wm2str(identifier, true)` is the empty string exactly when no table entry has
the identifier, and `wm2str(identifier, false)` is the empty string exactly
when the identifier is in the frequent-message set or has no table entry. -/
theorem wm2str_empty_iff (hdr : Sym → Nat) (build : Build) (identifier : Nat) :
    (∀ entry ∈ allMessages hdr build, entry.str ≠ "") ∧
    (wm2str hdr build identifier true = some ""
      ↔ ∀ entry ∈ allMessages hdr build, entry.wm ≠ identifier) ∧
    (wm2str hdr build identifier false = some ""
      ↔ identifier ∈ frequentMessages hdr
        ∨ ∀ entry ∈ allMessages hdr build, entry.wm ≠ identifier) := by
  refine ⟨fun entry h => str_ne_empty_of_mem hdr build entry h, ?_, ?_⟩
  · rw [wm2str, wm2strOver_eq, if_neg (by simp), Option.some.injEq,
      firstMatch_eq_empty_iff]
  · rw [wm2str, wm2strOver_eq]
    by_cases hf : identifier ∈ frequentMessages hdr
    · rw [if_pos ⟨rfl, hf⟩]
      exact ⟨fun _ => Or.inl hf, fun _ => rfl⟩
    · rw [if_neg (fun h => hf h.2), Option.some.injEq, firstMatch_eq_empty_iff]
      exact ⟨fun h => Or.inr h, fun h => h.resolve_left hf⟩

/-- C13: `wm2str` is injective on its non-empty results: when
`wm2str(a, f) = wm2str(b, g)` and that string is not empty, `a = b`; no name
in the table is attached to two different identifiers. -/
theorem wm2str_injective (hdr : Sym → Nat) (build : Build) (a b : Nat) (f g : Bool)
    (h : wm2str hdr build a f = wm2str hdr build b g)
    (hne : wm2str hdr build a f ≠ some "") :
    a = b ∧
    ∀ e₁ ∈ allMessages hdr build, ∀ e₂ ∈ allMessages hdr build,
      e₁.str = e₂.str → e₁.wm = e₂.wm := by
  refine ⟨?_, fun e₁ h₁ e₂ h₂ hs => by
    rw [same_name_same_entry hdr build build e₁ e₂ h₁ h₂ hs]⟩
  rcases wm2str_cases hdr build a f with ha | ⟨e₁, h₁, hw₁, ha⟩
  · exact absurd ha hne
  · rcases wm2str_cases hdr build b g with hb | ⟨e₂, h₂, hw₂, hb⟩
    · exact absurd (h.trans hb) hne
    · have hs : e₁.str = e₂.str := Option.some.inj (ha.symm.trans (h.trans hb))
      rw [← hw₁, ← hw₂, same_name_same_entry hdr build build e₁ e₂ h₁ h₂ hs]

theorem wm2str_injective_witness :
    wm2str winuser Build.base 0x001A true = wm2str winuser Build.base 0x001A false ∧
    wm2str winuser Build.base 0x001A true ≠ some "" ∧
    ((0x001A : Nat) = 0x001A ∧
      ∀ e₁ ∈ allMessages winuser Build.base, ∀ e₂ ∈ allMessages winuser Build.base,
        e₁.str = e₂.str → e₁.wm = e₂.wm) :=
  ⟨by simp only [wm2str, wm2strOver_eq]; decide,
    by simp only [wm2str, wm2strOver_eq]; decide,
    wm2str_injective winuser Build.base 0x001A 0x001A true false
      (by simp only [wm2str, wm2strOver_eq]; decide)
      (by simp only [wm2str, wm2strOver_eq]; decide)⟩

/-- C14: the entry `WM_SETTINGCHANGE` (index 29) is shadowed by the earlier
entry `WM_WININICHANGE` (index 28), which has the same identifier `0x001A`:
`wm2str` returns `"WM_SETTINGCHANGE"` for no identifier and no flag, and
`wm2str(0x001A, true)` is `"WM_WININICHANGE"`. -/
theorem settingchange_shadowed (build : Build) (identifier : Nat) (flag : Bool) :
    wm2str winuser build identifier flag ≠ some "WM_SETTINGCHANGE" ∧
    wm2str winuser build 0x001A true = some "WM_WININICHANGE" ∧
    (allMessages winuser build)[28]? = some ⟨0x001A, "WM_WININICHANGE"⟩ ∧
    (allMessages winuser build)[29]? = some ⟨0x001A, "WM_SETTINGCHANGE"⟩ := by
  have hres : ∀ fl : Bool, wm2str winuser build 0x001A fl = some "WM_WININICHANGE" := by
    intro fl
    rw [wm2str, wm2strOver_eq, firstMatch_winini, if_neg (fun h => absurd h.2 (by decide))]
  refine ⟨?_, hres true, ?_, ?_⟩
  · intro hret
    rcases wm2str_cases winuser build identifier flag with hempty | ⟨e, he, hwm, hname⟩
    · rw [hempty] at hret
      exact absurd hret (by decide)
    · have hs : e.str = "WM_SETTINGCHANGE" := Option.some.inj (hname.symm.trans hret)
      have heq := same_name_same_entry winuser build build e ⟨0x001A, "WM_SETTINGCHANGE"⟩ he
        (settingchange_mem build) hs
      have hid : identifier = 0x001A := by rw [← hwm, heq]
      rw [hid, hres flag] at hret
      exact absurd hret (by decide)
  · rcases build with ⟨_ | _, _ | _⟩ <;> decide
  · rcases build with ⟨_ | _, _ | _⟩ <;> decide

end Wm2str
